import Mathlib

/-
  Verification of the Calma website front-end enhancement scripts.

  The development shallowly embeds the two source files
    src/js/touch-enhancements.js
    src/js/gsap-optimizations.js
  as pure Lean functions: each DOM event handler becomes a state
  transformer on an explicit record of the mutable variables it closes
  over, and the observable side effects (simulated clicks, appended DOM
  nodes, registered scroll triggers, console output) are returned as data.

  JavaScript numeric conventions used throughout the embedding:
  - clientX / clientY coordinates and millisecond timestamps are integers
    in every scenario of interest, so they are modelled as Int;
  - a JS falsy test on a number (`!x` or `x || d`) is a test against 0;
  - a JS falsy test on a possibly-undefined value is modelled on Option.
-/

namespace CalmaWebsite

namespace TouchJS

/-- JS `a || b` on a possibly-undefined number: `undefined` and `0` are
falsy, any other number is returned unchanged.  Models the expression
`slider._touchStartTime || Date.now()` of touch-enhancements.js:286. -/
def jsNumOr : Option Int → Int → Int
  | none, d => d
  | some v, d => if v = 0 then d else v

/-- JS truthiness of a possibly-undefined string (`undefined` and the
empty string are falsy). -/
def jsTruthyStr : Option String → Bool
  | none => false
  | some s => s ≠ ""

/- ----------------------------------------------------------------
   setupSliderSwipe (touch-enhancements.js lines 225-313)

   Closure state per slider: startX, startY, currentX, isDragging,
   isVerticalScroll, plus the slider element attributes data-autoplay and
   data-temp-autoplay, and the expando property _touchStartTime that the
   touchend handler reads at line 286.  The source never assigns
   _touchStartTime, which the theorems below make explicit.
   ---------------------------------------------------------------- -/

/-- Mutable state of one slider gesture session: the closure variables of
setupSliderSwipe together with the slider attributes it reads and writes. -/
structure SliderTouchState where
  startX : Int
  startY : Int
  currentX : Int
  isDragging : Bool
  isVerticalScroll : Bool
  dataAutoplay : Option String
  dataTempAutoplay : Option String
  touchStartTime : Option Int
  deriving Repr, DecidableEq

/-- State of a slider before any touch: closure variables zeroed, no
temp-autoplay attribute, `_touchStartTime` never assigned (undefined). -/
def initSliderState (autoplay : Option String) : SliderTouchState :=
  { startX := 0, startY := 0, currentX := 0, isDragging := false,
    isVerticalScroll := false, dataAutoplay := autoplay,
    dataTempAutoplay := none, touchStartTime := none }

/-- The slider touchstart handler (lines 239-250): records start
coordinates, sets the dragging flag, clears the vertical-scroll flag, and
temporarily disables autoplay when `data-autoplay` is `"true"`.  Note that
it does not record a timestamp anywhere. -/
def sliderTouchStart (st : SliderTouchState) (x y : Int) : SliderTouchState :=
  let st := { st with startX := x, startY := y,
                      isDragging := true, isVerticalScroll := false }
  if st.dataAutoplay = some "true" then
    { st with dataTempAutoplay := some "true", dataAutoplay := some "false" }
  else st

/-- The slider touchmove handler (lines 253-271).  Returns the new state
and whether `e.preventDefault()` was called. -/
def sliderTouchMove (st : SliderTouchState) (x y : Int) : SliderTouchState × Bool :=
  if !st.isDragging then (st, false)
  else
    let st := { st with currentX := x }
    let diffX := (x - st.startX).natAbs
    let diffY := (y - st.startY).natAbs
    if diffY > diffX ∧ diffY > 10 then
      ({ st with isVerticalScroll := true }, false)
    else
      (st, decide (diffX > 10) && !st.isVerticalScroll)

/-- resetSliderTouch (lines 303-312): clears the dragging and
vertical-scroll flags and restores autoplay when it was temporarily
disabled.  It does not touch startX, startY or currentX. -/
def resetSliderTouch (st : SliderTouchState) : SliderTouchState :=
  let st := { st with isDragging := false, isVerticalScroll := false }
  if st.dataTempAutoplay = some "true" then
    { st with dataAutoplay := some "true", dataTempAutoplay := none }
  else st

/-- Navigation outcome of a slider touchend: a simulated click on the
left ("previous") arrow, on the right ("next") arrow, or nothing. -/
inductive NavAction where
  | clickPrev
  | clickNext
  | noAction
  deriving Repr, DecidableEq

/-- JS semantics of `Math.abs(diffX) / timeDiff > 0.5` (line 287 with the
0.5 threshold of line 290), for integer diffX and timeDiff:
if timeDiff is 0 the quotient is Infinity when diffX is nonzero (and
Infinity > 0.5 holds) and NaN when diffX is 0 (and NaN > 0.5 fails);
if timeDiff is negative the quotient is nonpositive or NaN, so the
comparison fails; if timeDiff is positive the IEEE comparison agrees with
the exact rational comparison, i.e. with 2|diffX| > timeDiff. -/
def velocityExceedsHalf (diffX timeDiff : Int) : Bool :=
  if timeDiff = 0 then decide (diffX ≠ 0)
  else if 0 < timeDiff then decide (2 * (diffX.natAbs : Int) > timeDiff)
  else false

/-- The slider touchend handler (lines 274-301).  `now` is the value of
`Date.now()` during the handler run (both calls on line 286 fall in the
same millisecond), `hasLeftArrow` / `hasRightArrow` record whether the
arrow elements queried at setup time exist.  Returns the simulated click
and the state after resetSliderTouch. -/
def sliderTouchEnd (st : SliderTouchState) (endX now : Int)
    (hasLeftArrow hasRightArrow : Bool) : NavAction × SliderTouchState :=
  if !st.isDragging || st.isVerticalScroll then
    (NavAction.noAction, resetSliderTouch st)
  else
    let diffX := endX - st.startX
    let timeDiff := now - jsNumOr st.touchStartTime now
    let shouldNavigate :=
      decide (diffX.natAbs > 50) || velocityExceedsHalf diffX timeDiff
    let action :=
      if shouldNavigate then
        if 0 < diffX then
          (if hasLeftArrow then NavAction.clickPrev else NavAction.noAction)
        else
          (if hasRightArrow then NavAction.clickNext else NavAction.noAction)
      else NavAction.noAction
    (action, resetSliderTouch st)

/- ----------------------------------------------------------------
   setupSwipeToClose (touch-enhancements.js lines 131-170)

   Uses the script-global variables touchStartX, touchStartY, touchEndX,
   isScrolling (lines 15-19).
   ---------------------------------------------------------------- -/

/-- The script-global gesture-tracking variables used by the mobile-menu
swipe-to-close handlers (lines 15-19). -/
structure MenuTouchState where
  touchStartX : Int
  touchStartY : Int
  touchEndX : Int
  isScrolling : Bool
  deriving Repr, DecidableEq

/-- Initial values of the script-global tracking variables. -/
def initMenuState : MenuTouchState :=
  { touchStartX := 0, touchStartY := 0, touchEndX := 0, isScrolling := false }

/-- The menu touchstart handler (lines 132-136). -/
def menuTouchStart (st : MenuTouchState) (x y : Int) : MenuTouchState :=
  { st with touchStartX := x, touchStartY := y, isScrolling := false }

/-- The menu touchmove handler (lines 138-150): bails out when either
start coordinate is 0 (JS falsy), otherwise classifies the session as
vertical scrolling when `|diffY| > |diffX|`. -/
def menuTouchMove (st : MenuTouchState) (x y : Int) : MenuTouchState :=
  if st.touchStartX = 0 ∨ st.touchStartY = 0 then st
  else
    let diffX := st.touchStartX - x
    let diffY := st.touchStartY - y
    if diffY.natAbs > diffX.natAbs then { st with isScrolling := true } else st

/-- The menu touchend handler (lines 152-169).  Returns whether
closeMobileMenu() was invoked (the only navigation side effect; invoked
at most once per touchend) and the state afterwards.  When the session
was classified as vertical scroll the handler returns before the reset
block, leaving every tracking variable unchanged. -/
def menuTouchEnd (st : MenuTouchState) (endX : Int) : Bool × MenuTouchState :=
  if st.isScrolling then (false, st)
  else
    let st := { st with touchEndX := endX }
    let swipeDistance := st.touchStartX - st.touchEndX
    let fires := decide (swipeDistance > 100)
    (fires, { st with touchStartX := 0, touchStartY := 0,
                      touchEndX := 0, isScrolling := false })

/-- All four script-global tracking variables hold their initial values. -/
def menuFieldsReset (s : MenuTouchState) : Prop :=
  s.touchStartX = 0 ∧ s.touchStartY = 0 ∧ s.touchEndX = 0 ∧ s.isScrolling = false

/- ----------------------------------------------------------------
   closeMobileMenu (touch-enhancements.js lines 336-341), also exposed on
   window.TouchEnhancements (line 494).
   ---------------------------------------------------------------- -/

/-- The `.w-nav-button` menu toggle button: its class list and the number
of simulated clicks it has received. -/
structure NavButton where
  classes : List String
  clickCount : Nat
  deriving Repr, DecidableEq

/-- closeMobileMenu (lines 336-341): queries the toggle button and clicks
it only when it exists and carries the `w--open` class.  Returns the
button state afterwards and whether a click was dispatched. -/
def closeMobileMenu : Option NavButton → Option NavButton × Bool
  | some b =>
      if "w--open" ∈ b.classes then
        (some { b with clickCount := b.clickCount + 1 }, true)
      else (some b, false)
  | none => (none, false)

/- ----------------------------------------------------------------
   createRippleEffect (touch-enhancements.js lines 73-107)
   ---------------------------------------------------------------- -/

/-- A bounding client rect as returned by getBoundingClientRect().
Coordinates are rationals: CSS pixel values are exact decimals. -/
structure Rect where
  left : Rat
  top : Rat
  width : Rat
  height : Rat
  deriving Repr, DecidableEq

/-- The inline geometry given to a ripple node (lines 75-92): a square of
side `size = max(width, height)` whose top-left corner sits at the touch
point shifted by half the size, plus the 600ms removal delay scheduled at
lines 102-106. -/
structure Ripple where
  width : Rat
  height : Rat
  left : Rat
  top : Rat
  removeDelayMs : Nat
  deriving Repr, DecidableEq

/-- The ripple-enabled target element: its CSS position and the number of
child nodes currently appended to it. -/
structure RippleHost where
  position : String
  childCount : Nat
  deriving Repr, DecidableEq

/-- The geometric part of createRippleEffect (lines 74-92). -/
def createRippleEffect (rect : Rect) (clientX clientY : Rat) : Ripple :=
  let size := max rect.width rect.height
  let x := clientX - rect.left - size / 2
  let y := clientY - rect.top - size / 2
  { width := size, height := size, left := x, top := y, removeDelayMs := 600 }

/-- createRippleEffect including its DOM effects on the host element
(lines 94-99): force relative positioning when the computed position is
static, then append exactly one ripple node. -/
def createRippleOn (host : RippleHost) (rect : Rect) (clientX clientY : Rat) :
    RippleHost × Ripple :=
  let ripple := createRippleEffect rect clientX clientY
  let host :=
    if host.position = "static" then { host with position := "relative" } else host
  ({ host with childCount := host.childCount + 1 }, ripple)

/-- DOM removeChild: succeeds when the given node is currently a child of
the parent, otherwise throws NotFoundError. -/
def removeChild (parent : RippleHost) (childAttached : Bool) :
    Except String RippleHost :=
  if childAttached then Except.ok { parent with childCount := parent.childCount - 1 }
  else Except.error "NotFoundError"

/-- The setTimeout callback of lines 102-106.  Its argument is
`ripple.parentNode` at firing time: `some parent` when the ripple is still
attached, `none` when it was detached externally.  The `if
(ripple.parentNode)` guard skips the removal in the detached case. -/
def rippleTimerHandler (rippleParent : Option RippleHost) :
    Except String (Option RippleHost) :=
  match rippleParent with
  | some p => (removeChild p true).map some
  | none => Except.ok none

/- ----------------------------------------------------------------
   setupScrollOptimizations, scroll throttle part
   (touch-enhancements.js lines 430-451)
   ---------------------------------------------------------------- -/

/-- State of the animation-frame scroll throttle: the `ticking` flag (line
431), how many requestAnimationFrame callbacks are currently queued, how
many times updateScrollPosition has run, and whether the body currently
carries the `scrolled` class. -/
structure ScrollState where
  ticking : Bool
  queuedFrames : Nat
  updatesApplied : Nat
  scrolledClass : Bool
  deriving Repr, DecidableEq

/-- The scroll event listener (lines 446-451): when `ticking` is unset it
queues one frame callback and sets the flag, otherwise it does nothing. -/
def onScrollEvent (s : ScrollState) : ScrollState :=
  if !s.ticking then
    { s with queuedFrames := s.queuedFrames + 1, ticking := true }
  else s

/-- Dispatching n scroll events in a row (no frame runs in between). -/
def iterateScroll : Nat → ScrollState → ScrollState
  | 0, s => s
  | n + 1, s => iterateScroll n (onScrollEvent s)

/-- updateScrollPosition (lines 433-444), run by the browser when a queued
frame callback fires: toggles the `scrolled` class on the 100px threshold
and clears `ticking`.  The queued-callback count drops by one because the
browser consumes the callback it runs. -/
def updateScrollPosition (scrollY : Int) (s : ScrollState) : ScrollState :=
  { s with scrolledClass := decide (scrollY > 100),
           ticking := false,
           updatesApplied := s.updatesApplied + 1,
           queuedFrames := s.queuedFrames - 1 }

/- ----------------------------------------------------------------
   initTouchEnhancements and the ready-state dispatch
   (touch-enhancements.js lines 10, 24-39, 480-489)
   ---------------------------------------------------------------- -/

/-- The browser environment the script reads at load time: touch
capability (line 10), user agent flags (lines 11-12), and the number of
elements matching each selector in the current document. -/
structure TouchWorld where
  hasOntouchstart : Bool
  maxTouchPoints : Nat
  isIOS : Bool
  count : String → Nat

/-- Line 10: `'ontouchstart' in window || navigator.maxTouchPoints > 0`. -/
def isTouchDevice (w : TouchWorld) : Bool :=
  w.hasOntouchstart || decide (w.maxTouchPoints > 0)

/-- Observable effects of running the touch-enhancements script: body
classes, numbers of attached listeners and observers, style elements
appended to the document head, aria attributes set, and console output. -/
structure TouchPageState where
  bodyClasses : List String
  touchListeners : Nat
  clickListeners : Nat
  scrollListeners : Nat
  focusListeners : Nat
  observers : Nat
  ariaLabelsSet : Nat
  headStyleCount : Nat
  logs : List String
  deriving Repr, DecidableEq

/-- A page with no effects applied yet. -/
def emptyPage : TouchPageState :=
  { bodyClasses := [], touchListeners := 0, clickListeners := 0,
    scrollListeners := 0, focusListeners := 0, observers := 0,
    ariaLabelsSet := 0, headStyleCount := 0, logs := [] }

/-- classList.add: appends the class unless already present. -/
def classListAdd (classes : List String) (c : String) : List String :=
  if c ∈ classes then classes else classes ++ [c]

/-- The selector of the touch-feedback elements (lines 45-47). -/
def touchFeedbackSelector : String :=
  ".navlink, .button, .mobile-page-link, .language-switch-div, .page-link, .section-heading.dark.nav"

/-- setupTouchFeedback (lines 44-68): four touch listeners per matched
element (ripple, pressed, release, cancel). -/
def setupTouchFeedback (w : TouchWorld) (s : TouchPageState) : TouchPageState :=
  { s with touchListeners := s.touchListeners + 4 * w.count touchFeedbackSelector }

/-- setupSwipeGestures (lines 112-126): three touch listeners on the
mobile menu when present, three per slider that has a `.w-slider-mask`
(setupSliderSwipe returns early otherwise, line 236), and three per image
gallery wrapper.  `slidersWithMask` counts the sliders whose mask query
succeeds. -/
def setupSwipeGestures (w : TouchWorld) (slidersWithMask : Nat)
    (s : TouchPageState) : TouchPageState :=
  let menuListeners := if w.count ".mobile-menu" > 0 then 3 else 0
  let galleryCount := w.count ".cta-image-wrapper, .grid-image-wrapper"
  { s with touchListeners :=
      s.touchListeners + menuListeners + 3 * slidersWithMask + 3 * galleryCount }

/-- setupMobileMenuEnhancements (lines 346-384): one touch listener and
one aria-label on the menu button when present, one mutation observer on
the mobile menu when present. -/
def setupMobileMenuEnhancements (w : TouchWorld) (s : TouchPageState) :
    TouchPageState :=
  let s :=
    if w.count ".w-nav-button" > 0 then
      { s with touchListeners := s.touchListeners + 1,
               ariaLabelsSet := s.ariaLabelsSet + 1 }
    else s
  if w.count ".mobile-menu" > 0 then { s with observers := s.observers + 1 } else s

/-- setupFormOptimizations (lines 389-405): per input one focus listener
on iOS and one touch listener always. -/
def setupFormOptimizations (w : TouchWorld) (s : TouchPageState) :
    TouchPageState :=
  let n := w.count "input, textarea, select"
  { s with focusListeners := s.focusListeners + (if w.isIOS then n else 0),
           touchListeners := s.touchListeners + n }

/-- setupScrollOptimizations (lines 410-452): one click listener per
anchor link and one throttled scroll listener on the window.  On touch
devices this function is never reached: the call before it at line 35
throws (see initTouchEnhancements below). -/
def setupScrollOptimizations (w : TouchWorld) (s : TouchPageState) :
    TouchPageState :=
  let anchors := w.count "a[href^=\x23]"
  { s with clickListeners := s.clickListeners + anchors,
           scrollListeners := s.scrollListeners + 1 }

/-- The exception thrown at line 35: `setupImageGalleryTouch()` is called
there but no function of that name is defined anywhere in the script. -/
def galleryRefError : String :=
  "ReferenceError: setupImageGalleryTouch is not defined"

/-- initTouchEnhancements (lines 24-39): returns immediately on non-touch
devices; on touch devices it tags the body and runs the setups in order
until line 35, where the call to the undefined setupImageGalleryTouch
throws a ReferenceError — so setupScrollOptimizations and the log at
line 38 are unreachable and the partial effects up to line 34 stand. -/
def initTouchEnhancements (w : TouchWorld) (slidersWithMask : Nat)
    (s : TouchPageState) : TouchPageState × Option String :=
  if !isTouchDevice w then (s, none)
  else
    let s := { s with bodyClasses := classListAdd s.bodyClasses "touch-device" }
    let s := setupTouchFeedback w s
    let s := setupSwipeGestures w slidersWithMask s
    let s := setupMobileMenuEnhancements w s
    let s := setupFormOptimizations w s
    (s, some galleryRefError)

/-- addRippleStyles (lines 457-478): appends one style element to the
document head. -/
def addRippleStyles (s : TouchPageState) : TouchPageState :=
  { s with headStyleCount := s.headStyleCount + 1 }

/-- The ready-state dispatch (lines 481-489): whichever branch runs, it
calls initTouchEnhancements and then addRippleStyles.  An exception
thrown inside initTouchEnhancements propagates uncaught out of the
handler, so addRippleStyles does not run on that path; the DOM effects
applied before the throw remain. -/
def readyDispatch (w : TouchWorld) (slidersWithMask : Nat)
    (s : TouchPageState) : TouchPageState × Option String :=
  match initTouchEnhancements w slidersWithMask s with
  | (s2, none) => (addRippleStyles s2, none)
  | (s2, some e) => (s2, some e)

end TouchJS

namespace GsapJS

/- ----------------------------------------------------------------
   gsap-optimizations.js.  Elements are identified by Nat ids; the DOM is
   a query function from selector strings to the matched element ids in
   document order, plus a scoped query for element.querySelector(All).
   ---------------------------------------------------------------- -/

/-- Animation-relevant state of one heading element: its
`dataset.splitDone` marker, how many times SplitType tokenized it, and how
many word animations were attached to it. -/
structure TextElem where
  splitDone : Option String
  splitCount : Nat
  wordAnimCount : Nat
  deriving Repr, DecidableEq

/-- A heading element never touched by the script. -/
def freshTextElem : TextElem :=
  { splitDone := none, splitCount := 0, wordAnimCount := 0 }

/-- A registration made against the animation library: a fromTo tween
with a scroll trigger (createOptimizedScrollTrigger), a scroll-triggered
timeline (footer, stats), or a staggered word animation on one tokenized
heading (the gsap.from of lines 151-165; its will-change handling applies
to the freshly created word spans, which live inside this registration). -/
inductive Reg where
  | fromTo (targets : List Nat) (triggerOverride : Option String)
      (start : String) (once : Bool)
  | timeline (triggerElem : Nat) (start : String) (steps : List (List Nat))
  | wordAnim (headingElem : Nat) (start : String)
  deriving Repr, DecidableEq

/-- Observable effects of running gsap-optimizations.js: elements whose
style.willChange was set, registrations made against the animation
library, console warnings, the per-heading tokenization states, and the
three global one-shot actions of initGSAPOptimizations. -/
structure GsapEffects where
  willChangeSet : List Nat
  regs : List Reg
  warnings : List String
  headingStates : List (Nat × TextElem)
  pluginRegistered : Bool
  defaultsSet : Bool
  refreshed : Bool
  deriving Repr, DecidableEq

/-- Effects state before the script runs, over the given heading states. -/
def startEffects (headings : List (Nat × TextElem)) : GsapEffects :=
  { willChangeSet := [], regs := [], warnings := [], headingStates := headings,
    pluginRegistered := false, defaultsSet := false, refreshed := false }

/-- The environment the script reads: whether the gsap and ScrollTrigger
globals are defined, the document query function, and the scoped query
function for sub-element lookups. -/
structure World where
  gsapLoaded : Bool
  scrollTriggerLoaded : Bool
  query : String → List Nat
  scopedQuery : Nat → String → List Nat

/-- createOptimizedScrollTrigger (lines 22-50): bails out on an empty
element list, otherwise sets will-change on every element and registers
one fromTo tween whose scroll trigger starts at the given offset (default
"top 85%", overridden by the caller) and plays once. -/
def createOptimizedScrollTrigger (elements : List Nat)
    (triggerOverride : Option String) (start : String) (s : GsapEffects) :
    GsapEffects :=
  if elements.isEmpty then s
  else
    { s with willChangeSet := s.willChangeSet ++ elements,
             regs := s.regs ++ [Reg.fromTo elements triggerOverride start true] }

/-- One entry of the imageConfigs table (lines 71-98): the claims concern
only the selector and the optional trigger override, the tween property
values ride along in the library call. -/
structure ImageConfig where
  selector : String
  trigger : Option String
  deriving Repr, DecidableEq

/-- The imageConfigs table of lines 71-98. -/
def imageConfigs : List ImageConfig :=
  [ { selector := ".image-wrapper.portrait", trigger := none },
    { selector := ".wide-image-wrapper", trigger := none },
    { selector := ".cta-image-wrapper", trigger := some ".cta-right-grid" },
    { selector := ".section-hero-image-wrapper", trigger := none },
    { selector := ".ceo-image-wrapper", trigger := none } ]

/-- The imageWrapperSelectors list of lines 111-118. -/
def imageWrapperSelectors : List String :=
  [ ".right-image-wrapper", ".brand-logo-wrapper", ".quick-stack-img-wrapper",
    ".residential-slider-image-wrap", ".grid-image-wrapper",
    ".commercial-project-img-wrapper" ]

/-- The imageConfigs.forEach loop of lines 100-108: query each selector,
skip the group when it matches nothing, otherwise register one optimized
scroll trigger with the default "top 85%" start. -/
def processImageConfigs (query : String → List Nat) (cfgs : List ImageConfig)
    (s : GsapEffects) : GsapEffects :=
  cfgs.foldl
    (fun s cfg =>
      let elements := query cfg.selector
      if elements.isEmpty then s
      else createOptimizedScrollTrigger elements cfg.trigger "top 85%" s) s

/-- The imageWrapperSelectors.forEach loop of lines 120-128. -/
def processWrapperSelectors (query : String → List Nat) (sels : List String)
    (s : GsapEffects) : GsapEffects :=
  sels.foldl
    (fun s sel =>
      let elements := query sel
      if elements.isEmpty then s
      else createOptimizedScrollTrigger elements none "top 85%" s) s

/-- The slider-images group of lines 55-68: query, skip when empty,
otherwise register one optimized scroll trigger starting at "top 80%". -/
def sliderImagesStep (w : World) (s : GsapEffects) : GsapEffects :=
  let sliderImages := w.query ".image-wrapper.slider"
  if sliderImages.isEmpty then s
  else createOptimizedScrollTrigger sliderImages none "top 80%" s

/-- initOptimizedImageAnimations (lines 53-129): the slider-images group,
then the imageConfigs loop, then the imageWrapperSelectors loop. -/
def initOptimizedImageAnimations (w : World) (s : GsapEffects) : GsapEffects :=
  let s := sliderImagesStep w s
  let s := processImageConfigs w.query imageConfigs s
  processWrapperSelectors w.query imageWrapperSelectors s

/-- The headingSelectors list of lines 134-138. -/
def headingSelectors : List String :=
  [ ".section-name", ".section-heading", ".pattern-heading", ".stats-heading",
    ".status-heading", ".cta-heading", ".project-grid-name", ".stats",
    ".page-hero-heading", ".project-heading" ]

/-- The fadeInSelectors list of lines 170-173. -/
def fadeInSelectors : List String :=
  [ ".pattern-sub-heading", ".project-sub-heading", ".paragraph",
    ".stats-sub-heading", ".sub-heading", ".button" ]

/-- The logoSelectors list of lines 187-190. -/
def logoSelectors : List String :=
  [ ".center-logo-wrapper", ".center-logo-calma", ".calma-logo-wrapper",
    ".grid-icon" ]

/-- Current state of a heading element; ids absent from the association
list are untouched elements. -/
def lookupElem (m : List (Nat × TextElem)) (i : Nat) : TextElem :=
  (Option.map Prod.snd (m.find? (fun p => p.1 = i))).getD freshTextElem

/-- Record the new state of heading i. -/
def setElem (m : List (Nat × TextElem)) (i : Nat) (e : TextElem) :
    List (Nat × TextElem) :=
  match m with
  | [] => [(i, e)]
  | p :: rest => if p.1 = i then (i, e) :: rest else p :: setElem rest i e

/-- The body of the allHeadings.forEach loop (lines 144-167): when the
element carries no truthy `dataset.splitDone` marker, tokenize it with
SplitType, set the marker to "true", and attach one staggered word
animation triggered at "top 85%"; otherwise do nothing. -/
def processHeadingStep (s : GsapEffects) (i : Nat) : GsapEffects :=
  let el := lookupElem s.headingStates i
  if TouchJS.jsTruthyStr el.splitDone then s
  else
    let el :=
      { el with splitDone := some "true", splitCount := el.splitCount + 1,
                wordAnimCount := el.wordAnimCount + 1 }
    { s with headingStates := setElem s.headingStates i el,
             regs := s.regs ++ [Reg.wordAnim i "top 85%"] }

/-- The allHeadings.forEach loop over the listed element ids. -/
def processHeadings (ids : List Nat) (s : GsapEffects) : GsapEffects :=
  ids.foldl processHeadingStep s

/-- The allHeadings collection of lines 140-142: every element matched by
a heading selector, in selector-major order. -/
def allHeadingIds (w : World) : List Nat :=
  headingSelectors.flatMap w.query

/-- Heading i currently carries a truthy `dataset.splitDone` marker. -/
def headingDone (s : GsapEffects) (i : Nat) : Prop :=
  TouchJS.jsTruthyStr (lookupElem s.headingStates i).splitDone = true

/-- Registrations that tokenize-and-animate a heading, as opposed to the
batch fromTo tweens and timelines. -/
def isWordAnim : Reg → Bool
  | Reg.wordAnim _ _ => true
  | _ => false

/-- The fade-in group of lines 169-184: the batched fade elements, skipped
when the combined selector list matches nothing, otherwise one optimized
scroll trigger starting at "top 90%". -/
def fadeInStep (w : World) (s : GsapEffects) : GsapEffects :=
  let fadeEls := fadeInSelectors.flatMap w.query
  if fadeEls.isEmpty then s
  else createOptimizedScrollTrigger fadeEls none "top 90%" s

/-- The logo group of lines 186-201: the batched logo elements, skipped
when empty, otherwise one optimized scroll trigger with the default
"top 85%" start. -/
def logoStep (w : World) (s : GsapEffects) : GsapEffects :=
  let logos := logoSelectors.flatMap w.query
  if logos.isEmpty then s
  else createOptimizedScrollTrigger logos none "top 85%" s

/-- initOptimizedTextAnimations (lines 132-202): tokenize-and-animate each
heading, then the fade-in group, then the logo group. -/
def initOptimizedTextAnimations (w : World) (s : GsapEffects) : GsapEffects :=
  logoStep w (fadeInStep w (processHeadings (allHeadingIds w) s))

/-- initOptimizedFooterAnimation (lines 205-260): bail out without a
footer; otherwise set will-change on every collected sub-element (null
single queries are skipped by the addWillChange guard) and register one
scroll-triggered timeline at "top 80%" whose steps chain the ten
sub-element groups.  Single-element queries keep the first match only. -/
def initOptimizedFooterAnimation (w : World) (s : GsapEffects) : GsapEffects :=
  match (w.query ".footer").head? with
  | none => s
  | some f =>
      let single := fun sel => (w.scopedQuery f sel).take 1
      let multi := fun sel => w.scopedQuery f sel
      let steps :=
        [ single ".footer-logo-div", single ".footer-left-grid",
          single ".download-heading", multi ".download-text",
          multi ".line.footer", single ".footer-middle-div",
          multi ".footer-text", single ".footer-bottom-div",
          multi ".terms-heading", multi ".icon" ]
      { s with willChangeSet := s.willChangeSet ++ steps.flatten,
               regs := s.regs ++ [Reg.timeline f "top 80%" steps] }

/-- The body of the statsContainers.forEach loop (lines 266-305): skip a
container holding neither lines nor stats, otherwise set will-change on
both groups and register one timeline at "top 80%" whose steps are the
nonempty groups in order. -/
def statsContainerStep (w : World) (s : GsapEffects) (c : Nat) : GsapEffects :=
  let lines := w.scopedQuery c ".line"
  let stats := w.scopedQuery c ".stats"
  if lines.isEmpty && stats.isEmpty then s
  else
    let steps :=
      (if lines.isEmpty then [] else [lines]) ++
      (if stats.isEmpty then [] else [stats])
    { s with willChangeSet := s.willChangeSet ++ lines ++ stats,
             regs := s.regs ++ [Reg.timeline c "top 80%" steps] }

/-- initOptimizedStatsAnimation (lines 263-306): the container loop. -/
def initOptimizedStatsAnimation (w : World) (s : GsapEffects) : GsapEffects :=
  (w.query ".location.stats.div").foldl (statsContainerStep w) s

/-- A document in which every selector matches nothing, with both
animation globals present. -/
def emptyWorld : World :=
  { gsapLoaded := true, scrollTriggerLoaded := true,
    query := fun _ => [], scopedQuery := fun _ _ => [] }

/-- The warning text of line 312. -/
def gsapMissingWarning : String :=
  "GSAP or ScrollTrigger not loaded. Skipping optimized animations."

/-- initGSAPOptimizations (lines 309-332): when either global is
undefined, warn and return before touching anything; otherwise register
the plugin, set the tween defaults, run the four init functions, and
refresh ScrollTrigger. -/
def initGSAPOptimizations (w : World) (s : GsapEffects) : GsapEffects :=
  if !w.gsapLoaded || !w.scrollTriggerLoaded then
    { s with warnings := s.warnings ++ [gsapMissingWarning] }
  else
    let s := { s with pluginRegistered := true, defaultsSet := true }
    let s := initOptimizedImageAnimations w s
    let s := initOptimizedTextAnimations w s
    let s := initOptimizedFooterAnimation w s
    let s := initOptimizedStatsAnimation w s
    { s with refreshed := true }

end GsapJS

/- ================================================================
   Theorems
   ================================================================ -/

/-- C1: the claim states that slider navigation fires iff |Δx| > 50px or
|Δx| divided by the elapsed session time exceeds 0.5 px/ms, and in
particular that Δx = 40px over 200ms fires nothing.  The code contradicts
this: the touchend handler reads `slider._touchStartTime` (line 286),
but no code ever assigns that property — the touchstart handler records
no timestamp, as the second conjunct shows — so timeDiff is always
`Date.now() - Date.now() = 0` and the computed velocity is `40 / 0 =
Infinity > 0.5`.  Evaluating the embedded session (touchstart at
clientX = 100, touchend at clientX = 140 two hundred ms later, both
arrows present) therefore clicks the previous arrow where the claim says
no action fires. -/
theorem c1_slider_velocity_ignores_elapsed_time :
    (TouchJS.sliderTouchEnd
        (TouchJS.sliderTouchStart (TouchJS.initSliderState none) 100 0)
        140 1200 true true).1 = TouchJS.NavAction.clickPrev
    ∧ ∀ (st : TouchJS.SliderTouchState) (x y : Int),
        (TouchJS.sliderTouchStart st x y).touchStartTime = st.touchStartTime := by
  constructor
  · decide
  · intro st x y
    unfold TouchJS.sliderTouchStart
    by_cases h : st.dataAutoplay = some "true" <;> simp [h]

/-- C2 counterexample: a mobile-menu session that is classified as
vertical scroll (start at (100, 100), move to (95, 10), end at 90) ends
with none of the tracking fields reset — touchStartX is still 100 — so
the Resolved to Idle reset is not unconditional. -/
theorem c2_vertical_menu_session_skips_reset :
    ¬ TouchJS.menuFieldsReset
        (TouchJS.menuTouchEnd
          (TouchJS.menuTouchMove
            (TouchJS.menuTouchStart TouchJS.initMenuState 100 100) 95 10) 90).2 := by
  unfold TouchJS.menuFieldsReset
  decide

/-- C2 amended: the slider touchend handler runs resetSliderTouch
unconditionally — clearing the dragging and vertical-scroll flags and
restoring the autoplay marker, though not the start coordinates — even
for vertical-scroll sessions; the mobile-menu touchend handler resets its
four tracking fields only when the session was not classified as vertical
scroll, and leaves the state completely unchanged when it was. -/
theorem c2_reset_per_variant :
    (∀ (st : TouchJS.SliderTouchState) (endX now : Int) (hl hr : Bool),
        (TouchJS.sliderTouchEnd st endX now hl hr).2 = TouchJS.resetSliderTouch st)
    ∧ (∀ st : TouchJS.SliderTouchState,
        (TouchJS.resetSliderTouch st).isDragging = false
        ∧ (TouchJS.resetSliderTouch st).isVerticalScroll = false
        ∧ (TouchJS.resetSliderTouch st).startX = st.startX
        ∧ (TouchJS.resetSliderTouch st).startY = st.startY
        ∧ (st.dataTempAutoplay = some "true" →
            (TouchJS.resetSliderTouch st).dataAutoplay = some "true"
            ∧ (TouchJS.resetSliderTouch st).dataTempAutoplay = none))
    ∧ (∀ (st : TouchJS.MenuTouchState) (endX : Int), st.isScrolling = false →
        TouchJS.menuFieldsReset (TouchJS.menuTouchEnd st endX).2)
    ∧ (∀ (st : TouchJS.MenuTouchState) (endX : Int), st.isScrolling = true →
        (TouchJS.menuTouchEnd st endX).2 = st) := by
  refine ⟨?_, ?_, ?_, ?_⟩
  · intro st endX now hl hr
    unfold TouchJS.sliderTouchEnd
    split <;> rfl
  · intro st
    unfold TouchJS.resetSliderTouch
    by_cases h : st.dataTempAutoplay = some "true" <;> simp [h]
  · intro st endX h
    simp [TouchJS.menuTouchEnd, h, TouchJS.menuFieldsReset]
  · intro st endX h
    simp [TouchJS.menuTouchEnd, h]

/-- C2 witness: the amended statement evaluated on concrete sessions — a
slider touchend from the initial state, an autoplay-marker restore, a
non-vertical menu session, and a vertical menu session. -/
theorem c2_reset_per_variant_witness :
    (TouchJS.sliderTouchEnd (TouchJS.initSliderState none) 5 7 true false).2 =
      TouchJS.resetSliderTouch (TouchJS.initSliderState none)
    ∧ (TouchJS.resetSliderTouch
        { startX := 1, startY := 2, currentX := 3, isDragging := true,
          isVerticalScroll := false, dataAutoplay := some "false",
          dataTempAutoplay := some "true", touchStartTime := none }).dataAutoplay
        = some "true"
    ∧ TouchJS.menuFieldsReset
        (TouchJS.menuTouchEnd
          { touchStartX := 120, touchStartY := 30, touchEndX := 0,
            isScrolling := false } 10).2
    ∧ (TouchJS.menuTouchEnd
        { touchStartX := 120, touchStartY := 30, touchEndX := 0,
          isScrolling := true } 10).2 =
        { touchStartX := 120, touchStartY := 30, touchEndX := 0,
          isScrolling := true } :=
  ⟨c2_reset_per_variant.1 _ 5 7 true false,
   ((c2_reset_per_variant.2.1 _).2.2.2.2 rfl).1,
   c2_reset_per_variant.2.2.1 _ 10 rfl,
   c2_reset_per_variant.2.2.2 _ 10 rfl⟩

/-- C3: for a mobile-menu session not classified as vertical scroll, the
touchend handler invokes closeMobileMenu (at most once per touchend, by
construction of the handler) exactly when the displacement in the closing
direction, touchStartX - endX, strictly exceeds 100px; there is no
velocity term and a swipe in the opposite direction (negative distance)
never fires. -/
theorem c3_menu_close_iff_over_100px :
    ∀ (st : TouchJS.MenuTouchState) (endX : Int), st.isScrolling = false →
      (TouchJS.menuTouchEnd st endX).1 = decide (st.touchStartX - endX > 100) := by
  intro st endX h
  simp [TouchJS.menuTouchEnd, h]

/-- C3 witness: a 120px closing swipe fires the close action and a 90px
swipe fires nothing. -/
theorem c3_menu_close_iff_over_100px_witness :
    (TouchJS.menuTouchEnd
      { touchStartX := 200, touchStartY := 50, touchEndX := 0,
        isScrolling := false } 80).1 = true
    ∧ (TouchJS.menuTouchEnd
      { touchStartX := 200, touchStartY := 50, touchEndX := 0,
        isScrolling := false } 110).1 = false :=
  ⟨(c3_menu_close_iff_over_100px _ 80 rfl).trans (by decide),
   (c3_menu_close_iff_over_100px _ 110 rfl).trans (by decide)⟩

/-- C9: closeMobileMenu dispatches a simulated click precisely when the
toggle button exists and carries the `w--open` class; whenever no click
is dispatched (menu closed or button absent) the button state is
untouched, so the accessor can never toggle a closed menu open. -/
theorem c9_closeMobileMenu_only_clicks_open (btn : Option TouchJS.NavButton) :
    ((TouchJS.closeMobileMenu btn).2 = true ↔
        ∃ b, btn = some b ∧ "w--open" ∈ b.classes)
    ∧ ((TouchJS.closeMobileMenu btn).2 = false →
        (TouchJS.closeMobileMenu btn).1 = btn) := by
  cases btn with
  | none => simp [TouchJS.closeMobileMenu]
  | some b =>
      by_cases h : "w--open" ∈ b.classes <;>
        simp [TouchJS.closeMobileMenu, h]

/-- C9 witness: a button without the open class is returned unchanged. -/
theorem c9_closeMobileMenu_only_clicks_open_witness :
    (TouchJS.closeMobileMenu
      (some { classes := ["w-nav-button"], clickCount := 0 })).1 =
      some { classes := ["w-nav-button"], clickCount := 0 } :=
  (c9_closeMobileMenu_only_clicks_open _).2 (by decide)

/-- C4: when either the gsap global or the ScrollTrigger global is
undefined at initialization time, initGSAPOptimizations appends exactly
the one console warning and changes nothing else: no plugin registration,
no defaults, no will-change style writes, no tween, timeline or trigger
registration, no heading tokenization, no refresh. -/
theorem c4_missing_dependency_aborts :
    ∀ (w : GsapJS.World) (s : GsapJS.GsapEffects),
      w.gsapLoaded = false ∨ w.scrollTriggerLoaded = false →
      GsapJS.initGSAPOptimizations w s =
        { s with warnings := s.warnings ++ [GsapJS.gsapMissingWarning] } := by
  intro w s h
  unfold GsapJS.initGSAPOptimizations
  rcases h with h | h <;> simp [h]

/-- C4 witness: with gsap absent and an arbitrary document, the run
produces only the warning. -/
theorem c4_missing_dependency_aborts_witness :
    GsapJS.initGSAPOptimizations
      { gsapLoaded := false, scrollTriggerLoaded := true,
        query := fun _ => [1, 2], scopedQuery := fun _ _ => [3] }
      (GsapJS.startEffects []) =
      { GsapJS.startEffects [] with warnings := [GsapJS.gsapMissingWarning] } :=
  c4_missing_dependency_aborts _ _ (Or.inl rfl)

/-- Folding a list with a step function that skips exactly the elements
failing a guard visits the same states as folding the filtered list. -/
theorem foldl_guard_filter {α β : Type} (f : β → α → β) (p : α → Bool)
    (hf : ∀ s a, p a = false → f s a = s) :
    ∀ (l : List α) (s : β), l.foldl f s = (l.filter p).foldl f s := by
  intro l
  induction l with
  | nil => intro s; rfl
  | cons a rest ih =>
      intro s
      by_cases h : p a
      · simp [List.filter_cons, h, ih]
      · have h0 : p a = false := by simpa using h
        simp [List.filter_cons, h0, hf s a h0, ih]

/-- C5: every declared role-selector group with zero matches is invisible
to the setup.  In order: the imageConfigs loop and the
imageWrapperSelectors loop produce exactly the effects (registrations,
will-change writes, warnings, everything) of the configuration with every
zero-match group deleted; the guarded batch registration on an empty
element list is the identity; an empty slider-images group makes
initOptimizedImageAnimations coincide with the pipeline without that
group; an empty fade-in group, logo group, footer group, or stats
container is likewise the identity (so no fromTo tween and no timeline is
registered for it); and the stats loop equals its run over only the
containers holding lines or stats.  Since each init function chains the
group steps sequentially, an empty group hands every later group exactly
the state it would have received had the empty group not existed. -/
theorem c5_empty_groups_are_skipped_independently :
    (∀ (q : String → List Nat) (cfgs : List GsapJS.ImageConfig)
        (s : GsapJS.GsapEffects),
        GsapJS.processImageConfigs q cfgs s =
          GsapJS.processImageConfigs q
            (cfgs.filter fun c => !(q c.selector).isEmpty) s)
    ∧ (∀ (q : String → List Nat) (sels : List String)
        (s : GsapJS.GsapEffects),
        GsapJS.processWrapperSelectors q sels s =
          GsapJS.processWrapperSelectors q
            (sels.filter fun sel => !(q sel).isEmpty) s)
    ∧ (∀ (t : Option String) (st : String) (s : GsapJS.GsapEffects),
        GsapJS.createOptimizedScrollTrigger [] t st s = s)
    ∧ (∀ (w : GsapJS.World) (s : GsapJS.GsapEffects),
        (w.query ".image-wrapper.slider").isEmpty = true →
        GsapJS.initOptimizedImageAnimations w s =
          GsapJS.processWrapperSelectors w.query GsapJS.imageWrapperSelectors
            (GsapJS.processImageConfigs w.query GsapJS.imageConfigs s))
    ∧ (∀ (w : GsapJS.World) (s : GsapJS.GsapEffects),
        (GsapJS.fadeInSelectors.flatMap w.query).isEmpty = true →
        GsapJS.fadeInStep w s = s)
    ∧ (∀ (w : GsapJS.World) (s : GsapJS.GsapEffects),
        (GsapJS.logoSelectors.flatMap w.query).isEmpty = true →
        GsapJS.logoStep w s = s)
    ∧ (∀ (w : GsapJS.World) (s : GsapJS.GsapEffects),
        w.query ".footer" = [] →
        GsapJS.initOptimizedFooterAnimation w s = s)
    ∧ (∀ (w : GsapJS.World) (c : Nat) (s : GsapJS.GsapEffects),
        w.scopedQuery c ".line" = [] → w.scopedQuery c ".stats" = [] →
        GsapJS.statsContainerStep w s c = s)
    ∧ (∀ (w : GsapJS.World) (s : GsapJS.GsapEffects),
        GsapJS.initOptimizedStatsAnimation w s =
          ((w.query ".location.stats.div").filter
              (fun c => !(w.scopedQuery c ".line").isEmpty
                || !(w.scopedQuery c ".stats").isEmpty)).foldl
            (GsapJS.statsContainerStep w) s) := by
  refine ⟨?_, ?_, ?_, ?_, ?_, ?_, ?_, ?_, ?_⟩
  · intro q cfgs s
    unfold GsapJS.processImageConfigs
    apply foldl_guard_filter
    intro s c h
    have h1 : (q c.selector).isEmpty = true := by
      simpa using h
    simp [h1]
  · intro q sels s
    unfold GsapJS.processWrapperSelectors
    apply foldl_guard_filter
    intro s sel h
    have h1 : (q sel).isEmpty = true := by
      simpa using h
    simp [h1]
  · intro t st s
    simp [GsapJS.createOptimizedScrollTrigger]
  · intro w s h
    unfold GsapJS.initOptimizedImageAnimations GsapJS.sliderImagesStep
    simp [h]
  · intro w s h
    unfold GsapJS.fadeInStep
    simp [h]
  · intro w s h
    unfold GsapJS.logoStep
    simp [h]
  · intro w s h
    unfold GsapJS.initOptimizedFooterAnimation
    simp [h]
  · intro w c s h1 h2
    unfold GsapJS.statsContainerStep
    simp [h1, h2]
  · intro w s
    unfold GsapJS.initOptimizedStatsAnimation
    apply foldl_guard_filter
    intro s c h
    simp only [Bool.or_eq_false_iff, Bool.not_eq_false'] at h
    simp [GsapJS.statsContainerStep, h.1, h.2]

/-- C5 witness: on a document where every selector matches nothing, the
slider-images, fade-in, logo and footer groups are each the identity and
a stats container with neither lines nor stats is skipped. -/
theorem c5_empty_groups_are_skipped_independently_witness :
    GsapJS.initOptimizedImageAnimations GsapJS.emptyWorld
        (GsapJS.startEffects []) =
      GsapJS.processWrapperSelectors GsapJS.emptyWorld.query
        GsapJS.imageWrapperSelectors
        (GsapJS.processImageConfigs GsapJS.emptyWorld.query
          GsapJS.imageConfigs (GsapJS.startEffects []))
    ∧ GsapJS.fadeInStep GsapJS.emptyWorld (GsapJS.startEffects []) =
        GsapJS.startEffects []
    ∧ GsapJS.logoStep GsapJS.emptyWorld (GsapJS.startEffects []) =
        GsapJS.startEffects []
    ∧ GsapJS.initOptimizedFooterAnimation GsapJS.emptyWorld
        (GsapJS.startEffects []) = GsapJS.startEffects []
    ∧ GsapJS.statsContainerStep GsapJS.emptyWorld (GsapJS.startEffects []) 3 =
        GsapJS.startEffects [] :=
  ⟨c5_empty_groups_are_skipped_independently.2.2.2.1
      GsapJS.emptyWorld (GsapJS.startEffects []) rfl,
   c5_empty_groups_are_skipped_independently.2.2.2.2.1
      GsapJS.emptyWorld (GsapJS.startEffects []) rfl,
   c5_empty_groups_are_skipped_independently.2.2.2.2.2.1
      GsapJS.emptyWorld (GsapJS.startEffects []) rfl,
   c5_empty_groups_are_skipped_independently.2.2.2.2.2.2.1
      GsapJS.emptyWorld (GsapJS.startEffects []) rfl,
   c5_empty_groups_are_skipped_independently.2.2.2.2.2.2.2.1
      GsapJS.emptyWorld 3 (GsapJS.startEffects []) rfl rfl⟩

/-- No code path of initTouchEnhancements appends a head style element:
neither the non-touch early return nor the touch path, which runs the
setups through line 34 and then throws. -/
theorem initTouchEnhancements_preserves_headStyleCount
    (w : TouchJS.TouchWorld) (m : Nat) (s : TouchJS.TouchPageState) :
    (TouchJS.initTouchEnhancements w m s).1.headStyleCount =
      s.headStyleCount := by
  unfold TouchJS.initTouchEnhancements TouchJS.setupFormOptimizations
    TouchJS.setupMobileMenuEnhancements TouchJS.setupSwipeGestures
    TouchJS.setupTouchFeedback
  by_cases h : TouchJS.isTouchDevice w <;>
    by_cases h1 : w.count ".w-nav-button" > 0 <;>
    by_cases h2 : w.count ".mobile-menu" > 0 <;>
      simp [h, h1, h2]

/-- C10: on a device with no touch capability initTouchEnhancements
returns immediately with the page untouched — no body class, no listener,
no observer, no log, no exception — and the ready dispatch then appends
exactly one head stylesheet.  The claim that the stylesheet is appended
unconditionally is defeated by a code slip, however: on every
touch-capable device the call at line 35 to setupImageGalleryTouch, a
function defined nowhere in the script, throws an uncaught
ReferenceError, so the dispatch ends in that exception and no stylesheet
is appended at all. -/
theorem c10_non_touch_guard_and_touch_crash :
    (∀ (w : TouchJS.TouchWorld) (m : Nat) (s : TouchJS.TouchPageState),
        TouchJS.isTouchDevice w = false →
        TouchJS.initTouchEnhancements w m s = (s, none)
        ∧ TouchJS.readyDispatch w m s =
            ({ s with headStyleCount := s.headStyleCount + 1 }, none))
    ∧ (∀ (w : TouchJS.TouchWorld) (m : Nat) (s : TouchJS.TouchPageState),
        TouchJS.isTouchDevice w = true →
        (TouchJS.readyDispatch w m s).2 = some TouchJS.galleryRefError
        ∧ (TouchJS.readyDispatch w m s).1.headStyleCount =
            s.headStyleCount) := by
  constructor
  · intro w m s h
    have hinit : TouchJS.initTouchEnhancements w m s = (s, none) := by
      unfold TouchJS.initTouchEnhancements
      simp [h]
    refine ⟨hinit, ?_⟩
    unfold TouchJS.readyDispatch
    rw [hinit]
    rfl
  · intro w m s h
    have hsnd : (TouchJS.initTouchEnhancements w m s).2 =
        some TouchJS.galleryRefError := by
      unfold TouchJS.initTouchEnhancements
      simp [h]
    have hfst : (TouchJS.initTouchEnhancements w m s).1.headStyleCount =
        s.headStyleCount := initTouchEnhancements_preserves_headStyleCount w m s
    have hpair : TouchJS.initTouchEnhancements w m s =
        ((TouchJS.initTouchEnhancements w m s).1,
          some TouchJS.galleryRefError) := by
      rw [← hsnd]
    unfold TouchJS.readyDispatch
    rw [hpair]
    exact ⟨rfl, hfst⟩

/-- C10 witness: a desktop world (no ontouchstart, zero touch points)
ends with the stylesheet appended and no exception; a touch world ends in
the ReferenceError thrown at line 35. -/
theorem c10_non_touch_guard_and_touch_crash_witness :
    TouchJS.readyDispatch
      { hasOntouchstart := false, maxTouchPoints := 0, isIOS := false,
        count := fun _ => 7 } 2 TouchJS.emptyPage =
      ({ TouchJS.emptyPage with headStyleCount := 1 }, none)
    ∧ (TouchJS.readyDispatch
        { hasOntouchstart := true, maxTouchPoints := 5, isIOS := true,
          count := fun _ => 7 } 2 TouchJS.emptyPage).2 =
        some TouchJS.galleryRefError :=
  ⟨(c10_non_touch_guard_and_touch_crash.1
      { hasOntouchstart := false, maxTouchPoints := 0, isIOS := false,
        count := fun _ => 7 } 2 TouchJS.emptyPage rfl).2,
   (c10_non_touch_guard_and_touch_crash.2
      { hasOntouchstart := true, maxTouchPoints := 5, isIOS := true,
        count := fun _ => 7 } 2 TouchJS.emptyPage rfl).1⟩

/-- C6: every touch-start on a ripple-enabled element appends exactly one
ripple node; the ripple is a square whose side is the longer bounding-box
dimension, its center in element-local coordinates is the touch point,
and its removal is scheduled 600ms later; the timer callback never
throws: when the ripple still has a parent it is removed, and when it was
already detached the guard skips the removal entirely. -/
theorem c6_ripple_geometry_and_guarded_removal :
    (∀ (host : TouchJS.RippleHost) (rect : TouchJS.Rect) (cx cy : Rat),
        (TouchJS.createRippleOn host rect cx cy).1.childCount =
            host.childCount + 1
        ∧ (TouchJS.createRippleOn host rect cx cy).2.width =
            max rect.width rect.height
        ∧ (TouchJS.createRippleOn host rect cx cy).2.height =
            max rect.width rect.height
        ∧ (TouchJS.createRippleOn host rect cx cy).2.left +
            (TouchJS.createRippleOn host rect cx cy).2.width / 2 =
              cx - rect.left
        ∧ (TouchJS.createRippleOn host rect cx cy).2.top +
            (TouchJS.createRippleOn host rect cx cy).2.height / 2 =
              cy - rect.top
        ∧ (TouchJS.createRippleOn host rect cx cy).2.removeDelayMs = 600)
    ∧ (∀ p : Option TouchJS.RippleHost,
        ∃ q, TouchJS.rippleTimerHandler p = Except.ok q)
    ∧ TouchJS.rippleTimerHandler none = Except.ok none := by
  refine ⟨?_, ?_, rfl⟩
  · intro host rect cx cy
    unfold TouchJS.createRippleOn TouchJS.createRippleEffect
    by_cases h : host.position = "static" <;>
      refine ⟨by simp [h], by simp [h], by simp [h], ?_, ?_, by simp [h]⟩ <;>
      · simp only [h, if_true, if_false, reduceIte]
        ring
  · intro p
    cases p with
    | none => exact ⟨none, rfl⟩
    | some host =>
        exact ⟨some { host with childCount := host.childCount - 1 }, rfl⟩

/-- The scroll listener does nothing while a frame callback is pending. -/
theorem onScrollEvent_pending (s : TouchJS.ScrollState)
    (h : s.ticking = true) : TouchJS.onScrollEvent s = s := by
  simp [TouchJS.onScrollEvent, h]

/-- Repeated scroll events while a frame callback is pending change
nothing. -/
theorem iterateScroll_pending :
    ∀ (n : Nat) (s : TouchJS.ScrollState), s.ticking = true →
      TouchJS.iterateScroll n s = s := by
  intro n
  induction n with
  | zero => intro s _; rfl
  | succ m ih =>
      intro s h
      show TouchJS.iterateScroll m (TouchJS.onScrollEvent s) = s
      rw [onScrollEvent_pending s h]
      exact ih s h

/-- C7: dispatching any positive number of scroll events from an idle
state queues exactly one animation-frame callback (not one per event) and
raises the pending flag; when the browser then runs that single callback,
the scrolled class is set exactly when the vertical offset exceeds 100px,
the pending flag is cleared, and precisely one class update has been
applied. -/
theorem c7_scroll_events_coalesce_to_one_update :
    ∀ (s : TouchJS.ScrollState) (n : Nat), s.ticking = false → 1 ≤ n →
      (TouchJS.iterateScroll n s).queuedFrames = s.queuedFrames + 1
      ∧ (TouchJS.iterateScroll n s).ticking = true
      ∧ ∀ y : Int,
          (TouchJS.updateScrollPosition y
              (TouchJS.iterateScroll n s)).scrolledClass = decide (y > 100)
          ∧ (TouchJS.updateScrollPosition y
              (TouchJS.iterateScroll n s)).ticking = false
          ∧ (TouchJS.updateScrollPosition y
              (TouchJS.iterateScroll n s)).updatesApplied =
                s.updatesApplied + 1 := by
  intro s n h hn
  obtain ⟨m, rfl⟩ : ∃ m, n = m + 1 := ⟨n - 1, (Nat.succ_pred_eq_of_pos hn).symm⟩
  have hstep : TouchJS.onScrollEvent s =
      { s with queuedFrames := s.queuedFrames + 1, ticking := true } := by
    simp [TouchJS.onScrollEvent, h]
  have hiter : TouchJS.iterateScroll (m + 1) s =
      { s with queuedFrames := s.queuedFrames + 1, ticking := true } := by
    show TouchJS.iterateScroll m (TouchJS.onScrollEvent s) = _
    rw [hstep]
    exact iterateScroll_pending m _ rfl
  rw [hiter]
  refine ⟨rfl, rfl, ?_⟩
  intro y
  exact ⟨rfl, rfl, rfl⟩

/-- C7 witness: five scroll events from the idle state queue one frame
callback, and running it at offset 250 applies the scrolled class. -/
theorem c7_scroll_events_coalesce_to_one_update_witness :
    (TouchJS.iterateScroll 5
      { ticking := false, queuedFrames := 0, updatesApplied := 0,
        scrolledClass := false }).queuedFrames = 1
    ∧ (TouchJS.updateScrollPosition 250
        (TouchJS.iterateScroll 5
          { ticking := false, queuedFrames := 0, updatesApplied := 0,
            scrolledClass := false })).scrolledClass = true :=
  ⟨(c7_scroll_events_coalesce_to_one_update
      { ticking := false, queuedFrames := 0, updatesApplied := 0,
        scrolledClass := false } 5 rfl (by decide)).1,
   ((c7_scroll_events_coalesce_to_one_update
      { ticking := false, queuedFrames := 0, updatesApplied := 0,
        scrolledClass := false } 5 rfl (by decide)).2.2 250).1.trans (by decide)⟩

/-- Writing heading i and reading it back yields the written state. -/
theorem lookupElem_setElem_self :
    ∀ (m : List (Nat × GsapJS.TextElem)) (i : Nat) (e : GsapJS.TextElem),
      GsapJS.lookupElem (GsapJS.setElem m i e) i = e := by
  intro m i e
  induction m with
  | nil => simp [GsapJS.setElem, GsapJS.lookupElem, List.find?]
  | cons p rest ih =>
      by_cases h : p.1 = i
      · simp [GsapJS.setElem, h, GsapJS.lookupElem, List.find?]
      · simpa [GsapJS.setElem, h, GsapJS.lookupElem, List.find?] using ih

/-- Writing heading i leaves every other heading unchanged. -/
theorem lookupElem_setElem_ne :
    ∀ (m : List (Nat × GsapJS.TextElem)) (i j : Nat) (e : GsapJS.TextElem),
      j ≠ i →
      GsapJS.lookupElem (GsapJS.setElem m i e) j = GsapJS.lookupElem m j := by
  intro m i j e hne
  have hij : i ≠ j := fun h => hne h.symm
  induction m with
  | nil =>
      simp [GsapJS.setElem, GsapJS.lookupElem, List.find?, hij]
  | cons p rest ih =>
      by_cases h : p.1 = i
      · subst h
        have : ¬ p.1 = j := fun h2 => hne h2.symm
        simp [GsapJS.setElem, GsapJS.lookupElem, List.find?, this]
      · by_cases h2 : p.1 = j
        · simp [GsapJS.setElem, h, GsapJS.lookupElem, List.find?, h2, hne]
        · simpa [GsapJS.setElem, h, GsapJS.lookupElem, List.find?, h2] using ih

/-- Processing heading i leaves its marker truthy. -/
theorem processHeadingStep_done_self
    (s : GsapJS.GsapEffects) (i : Nat) :
    GsapJS.headingDone (GsapJS.processHeadingStep s i) i := by
  unfold GsapJS.processHeadingStep GsapJS.headingDone
  by_cases h : TouchJS.jsTruthyStr
      (GsapJS.lookupElem s.headingStates i).splitDone = true
  · simp [h]
  · have h0 : TouchJS.jsTruthyStr
        (GsapJS.lookupElem s.headingStates i).splitDone = false := by
      simpa using h
    simp only [h0, Bool.false_eq_true, if_false]
    simp [lookupElem_setElem_self, TouchJS.jsTruthyStr]

/-- Processing any heading preserves the markers of processed headings. -/
theorem processHeadingStep_done_preserve
    (s : GsapJS.GsapEffects) (i j : Nat)
    (hj : GsapJS.headingDone s j) :
    GsapJS.headingDone (GsapJS.processHeadingStep s i) j := by
  by_cases hij : j = i
  · subst hij
    exact processHeadingStep_done_self s j
  · unfold GsapJS.processHeadingStep
    by_cases h : TouchJS.jsTruthyStr
        (GsapJS.lookupElem s.headingStates i).splitDone
    · simpa [h] using hj
    · unfold GsapJS.headingDone at *
      simpa [h, lookupElem_setElem_ne _ _ _ _ hij] using hj

/-- Processing an already-processed heading is a no-op. -/
theorem processHeadingStep_noop
    (s : GsapJS.GsapEffects) (i : Nat)
    (h : GsapJS.headingDone s i) :
    GsapJS.processHeadingStep s i = s := by
  unfold GsapJS.headingDone at h
  simp [GsapJS.processHeadingStep, h]

/-- The heading loop preserves processed markers. -/
theorem processHeadings_done_preserve :
    ∀ (ids : List Nat) (s : GsapJS.GsapEffects) (j : Nat),
      GsapJS.headingDone s j →
      GsapJS.headingDone (GsapJS.processHeadings ids s) j := by
  intro ids
  induction ids with
  | nil => intro s j hj; exact hj
  | cons i rest ih =>
      intro s j hj
      exact ih _ j (processHeadingStep_done_preserve s i j hj)

/-- After the heading loop every visited heading carries the marker. -/
theorem processHeadings_done_of_mem :
    ∀ (ids : List Nat) (s : GsapJS.GsapEffects) (j : Nat),
      j ∈ ids →
      GsapJS.headingDone (GsapJS.processHeadings ids s) j := by
  intro ids
  induction ids with
  | nil => intro s j hj; cases hj
  | cons i rest ih =>
      intro s j hj
      rcases List.mem_cons.mp hj with h | h
      · subst h
        exact processHeadings_done_preserve rest _ j
          (processHeadingStep_done_self s j)
      · exact ih _ j h

/-- The heading loop is a no-op when every visited heading is already
processed. -/
theorem processHeadings_noop :
    ∀ (ids : List Nat) (s : GsapJS.GsapEffects),
      (∀ j ∈ ids, GsapJS.headingDone s j) →
      GsapJS.processHeadings ids s = s := by
  intro ids
  induction ids with
  | nil => intro s _; rfl
  | cons i rest ih =>
      intro s h
      show GsapJS.processHeadings rest (GsapJS.processHeadingStep s i) = s
      rw [processHeadingStep_noop s i (h i (List.mem_cons_self i rest))]
      exact ih s (fun j hj => h j (List.mem_cons_of_mem i hj))

/-- The batch tween registration touches neither the heading states nor
the word-animation registrations. -/
theorem createOptimizedScrollTrigger_heading_invariant
    (els : List Nat) (t : Option String) (st : String)
    (s : GsapJS.GsapEffects) :
    (GsapJS.createOptimizedScrollTrigger els t st s).headingStates =
        s.headingStates
    ∧ (GsapJS.createOptimizedScrollTrigger els t st s).regs.filter
        GsapJS.isWordAnim = s.regs.filter GsapJS.isWordAnim := by
  unfold GsapJS.createOptimizedScrollTrigger
  by_cases h : els.isEmpty <;> simp [h, GsapJS.isWordAnim]

/-- The text-animation setup changes heading states and word-animation
registrations exactly as the heading loop does; the fade-in and logo
batch tweens contribute neither. -/
theorem initOptimizedTextAnimations_heading_part
    (w : GsapJS.World) (s : GsapJS.GsapEffects) :
    (GsapJS.initOptimizedTextAnimations w s).headingStates =
      (GsapJS.processHeadings (GsapJS.allHeadingIds w) s).headingStates
    ∧ (GsapJS.initOptimizedTextAnimations w s).regs.filter GsapJS.isWordAnim =
      (GsapJS.processHeadings (GsapJS.allHeadingIds w) s).regs.filter
        GsapJS.isWordAnim := by
  unfold GsapJS.initOptimizedTextAnimations GsapJS.logoStep GsapJS.fadeInStep
  constructor <;>
  · by_cases h1 : (GsapJS.fadeInSelectors.flatMap w.query).isEmpty <;>
    by_cases h2 : (GsapJS.logoSelectors.flatMap w.query).isEmpty <;>
      simp [h1, h2,
            (createOptimizedScrollTrigger_heading_invariant _ _ _ _).1,
            (createOptimizedScrollTrigger_heading_invariant _ _ _ _).2]

/-- C8: running the text-animation setup a second time over the same
document re-tokenizes nothing and attaches no second word animation: the
per-heading states (including their SplitType run counts) and the set of
word-animation registrations after the second run equal those after the
first, because every heading then carries the dataset.splitDone marker. -/
theorem c8_heading_setup_idempotent :
    ∀ (w : GsapJS.World) (s : GsapJS.GsapEffects),
      (GsapJS.initOptimizedTextAnimations w
          (GsapJS.initOptimizedTextAnimations w s)).headingStates =
        (GsapJS.initOptimizedTextAnimations w s).headingStates
      ∧ (GsapJS.initOptimizedTextAnimations w
          (GsapJS.initOptimizedTextAnimations w s)).regs.filter
            GsapJS.isWordAnim =
        (GsapJS.initOptimizedTextAnimations w s).regs.filter
          GsapJS.isWordAnim := by
  intro w s
  have hdone : ∀ j ∈ GsapJS.allHeadingIds w,
      GsapJS.headingDone (GsapJS.initOptimizedTextAnimations w s) j := by
    intro j hj
    have h1 := processHeadings_done_of_mem (GsapJS.allHeadingIds w) s j hj
    unfold GsapJS.headingDone at h1 ⊢
    rw [(initOptimizedTextAnimations_heading_part w s).1]
    exact h1
  have hnoop := processHeadings_noop (GsapJS.allHeadingIds w) _ hdone
  constructor
  · rw [(initOptimizedTextAnimations_heading_part w
      (GsapJS.initOptimizedTextAnimations w s)).1, hnoop]
  · rw [(initOptimizedTextAnimations_heading_part w
      (GsapJS.initOptimizedTextAnimations w s)).2, hnoop]

end CalmaWebsite
